import Mathlib

/-!
# Verification of the frappe capture dialog (frappe/public/js/frappe/ui/capture.js)

Shallow embedding of the `frappe.ui.Capture` class: a camera-capture dialog
session holding a facing mode, an ordered list of captured images, an optional
media stream, an optional dialog, and an optional registered callback.

The browser media API and `frappe.ui.Dialog` (the modal presenter) are external
collaborators: the dialog is modelled from the spec's `ModalPresenter`
interface, whose `setPrimaryAction(label, fn)` / `setSecondaryAction(fn)` /
`setSecondaryActionLabel(label)` rebind (replace) the corresponding action of
the dialog.  The camera request outcome (`getUserMedia` resolving or
rejecting) is an explicit input to the operations that perform it.

Effects that cross the component boundary (alerts, dialog dismissal, stream
release, callback invocation) are recorded in an ordered event trace.
-/

namespace Capture

/-- The facing mode requested from the camera: `"environment"` or `"user"`. -/
inductive FacingMode
  | environment
  | user
deriving DecidableEq

/-- A track of a media stream; `track.stop()` sets `stopped`. -/
structure Track where
  stopped : Bool
deriving DecidableEq

/-- A media stream: a handle over its list of tracks. -/
structure Stream where
  tracks : List Track
deriving DecidableEq

/-- `stream.getTracks().forEach(track => track.stop())`. -/
def Stream.stopAll (st : Stream) : Stream :=
  ⟨st.tracks.map fun t => { t with stopped := true }⟩

/-- A stream is live when some underlying track is not stopped. -/
def Stream.live (st : Stream) : Bool :=
  st.tracks.any fun t => !t.stopped

/-- A media-access error raised by the device provider (permission denial,
unavailable hardware); the payload is an opaque code. -/
structure MediaErr where
  code : Nat
deriving DecidableEq

/-- Outcome of a `navigator.mediaDevices.getUserMedia` request. -/
inductive MediaOutcome
  | ok (st : Stream)
  | err (e : MediaErr)
deriving DecidableEq

/-- The handler currently bound to the dialog's primary button. -/
inductive PrimaryHandler
  | takePhoto
  | submitAction
deriving DecidableEq

/-- The handler currently bound to the dialog's secondary button. -/
inductive SecondaryHandler
  | retake
  | switchCamera
deriving DecidableEq

/-- The modal dialog, modelled from the spec's `ModalPresenter`: labels and
bound handlers of the primary/secondary actions, visibility of the
"Take Multiple" custom action and of the preview / live-stream panes. -/
structure DialogState where
  shown : Bool
  primaryLabel : String
  primaryHandler : PrimaryHandler
  secondaryLabel : String
  secondaryHandler : SecondaryHandler
  multipleVisible : Bool
  previewVisible : Bool
  streamVisible : Bool
deriving DecidableEq

/-- Configuration actually held by a session (`frappe.ui.Capture.OPTIONS`
shape). -/
structure Options where
  title : String
  animate : Bool
  error : Bool
deriving DecidableEq

/-- The argument object passed to the constructor: each key may be omitted. -/
structure OptionsArg where
  title : Option String := none
  animate : Option Bool := none
  error : Option Bool := none
deriving DecidableEq

/-- `frappe.ui.Capture.OPTIONS`: the defaults. -/
def OPTIONS : Options :=
  { title := "Camera", animate := false, error := false }

/-- `set_options(options)`: `{ ...frappe.ui.Capture.OPTIONS, ...options }` —
every omitted key takes its default, every present key overrides it. -/
def set_options (o : OptionsArg) : Options :=
  { title := o.title.getD OPTIONS.title
    animate := o.animate.getD OPTIONS.animate
    error := o.error.getD OPTIONS.error }

/-- The state of a `frappe.ui.Capture` session. -/
structure State where
  options : Options
  facing_mode : FacingMode
  images : List String
  stream : Option Stream
  dialog : Option DialogState
  callback : Option Nat
deriving DecidableEq

/-- The constructor: merge options over the defaults, start facing the
environment camera with no captured images, no stream, no dialog and no
callback. -/
def mkCapture (o : OptionsArg) : State :=
  { options := set_options o
    facing_mode := FacingMode.environment
    images := []
    stream := none
    dialog := none
    callback := none }

/-- Observable effects, in the order they occur. -/
inductive Event
  | alert (msg : String)
  | dialogDismissed
  | streamReleased
  | callbackInvoked (cb : Nat) (images : List String)
deriving DecidableEq

/-- Whether an event is a user-visible alert. -/
def Event.isAlert : Event → Bool
  | .alert _ => true
  | _ => false

/-- Whether an event is a callback invocation. -/
def Event.isCallback : Event → Bool
  | .callbackInvoked _ _ => true
  | _ => false

/-- `frappe.ui.Capture.ERR_MESSAGE`. -/
def err_message : String := "Unable to load camera."

/-- `stop_media_stream()`: stop every track of the held stream, if any.  A
`streamReleased` event is recorded when the stream was still live. -/
def stop_media_stream (s : State) : State × List Event :=
  match s.stream with
  | none => (s, [])
  | some st =>
      ({ s with stream := some st.stopAll },
        if st.live then [Event.streamReleased] else [])

/-- `this.dialog.hide()`: dismiss the dialog when it is shown; its `on_hide`
hook runs `stop_media_stream()`.  Hiding an already-hidden or absent dialog
is a no-op of the presenter. -/
def dialog_hide (s : State) : State × List Event :=
  match s.dialog with
  | none => (s, [])
  | some d =>
      if d.shown then
        let s1 := { s with dialog := some { d with shown := false } }
        let r := stop_media_stream s1
        (r.1, Event.dialogDismissed :: r.2)
      else (s, [])

/-- `hide()`: `if (this.dialog) this.dialog.hide(); this.stop_media_stream()`. -/
def hide (s : State) : State × List Event :=
  let r1 := dialog_hide s
  let r2 := stop_media_stream r1.1
  (r2.1, r1.2 ++ r2.2)

/-- `set_take_photo_action()` as it reconfigures the dialog: primary action
becomes "Take Photo", secondary label becomes "Switch Camera" and the
secondary action is rebound to the camera-switch handler. -/
def set_take_photo_action (d : DialogState) : DialogState :=
  { d with
    primaryLabel := "Take Photo"
    primaryHandler := PrimaryHandler.takePhoto
    secondaryLabel := "Switch Camera"
    secondaryHandler := SecondaryHandler.switchCamera }

/-- The dialog as `render()` wires it: `set_take_photo_action()` first, the
secondary action then rebound to the retake handler, the "Take Multiple"
custom action added and hidden, the preview pane hidden and the live stream
shown, the dialog not yet shown. -/
def initial_dialog : DialogState :=
  let d : DialogState :=
    { shown := false
      primaryLabel := ""
      primaryHandler := PrimaryHandler.takePhoto
      secondaryLabel := ""
      secondaryHandler := SecondaryHandler.retake
      multipleVisible := true
      previewVisible := false
      streamVisible := true }
  let d := set_take_photo_action d
  let d := { d with secondaryHandler := SecondaryHandler.retake }
  { d with multipleVisible := false }

/-- `render()`: request a stream with `{video: {facingMode}}`.  On success the
stream is held and a fresh dialog is built; on failure nothing is touched and
the error is returned. -/
def render (s : State) (res : MediaOutcome) : State × Option MediaErr :=
  match res with
  | .err e => (s, some e)
  | .ok st => ({ s with stream := some st, dialog := some initial_dialog }, none)

/-- Result of a `show()` (or camera switch): the new session state, the
trace of observable events, and the error rethrown to the caller, if any. -/
structure ShowResult where
  state : State
  events : List Event
  thrown : Option MediaErr
deriving DecidableEq

/-- `show()`: `render()` then present the dialog; on a rejected request,
surface one alert when `options.error` is set and rethrow the error. -/
def show_op (s : State) (res : MediaOutcome) : ShowResult :=
  match render s res with
  | (s1, none) =>
      { state := { s1 with dialog := s1.dialog.map fun d => { d with shown := true } }
        events := []
        thrown := none }
  | (s1, some e) =>
      { state := s1
        events := if s1.options.error then [Event.alert err_message] else []
        thrown := some e }

/-- The "Take Photo" primary action: capture the current frame, append it to
`images`, swap the stream pane for the preview pane, relabel the secondary
button "Retake", show it and the "Take Multiple" button, and rebind the
primary action to "Submit".  The secondary HANDLER is not rebound. -/
def take_photo (frame : String) (s : State) : State :=
  match s.dialog with
  | none => s
  | some d =>
      { s with
        images := s.images ++ [frame]
        dialog := some
          { d with
            previewVisible := true
            streamVisible := false
            secondaryLabel := "Retake"
            multipleVisible := true
            primaryLabel := "Submit"
            primaryHandler := PrimaryHandler.submitAction } }

/-- The retake handler bound by `render()`: pop the last captured image,
swap back to the live stream and run `set_take_photo_action()`. -/
def retake (s : State) : State :=
  match s.dialog with
  | none => s
  | some d =>
      { s with
        images := s.images.dropLast
        dialog := some (set_take_photo_action
          { d with previewVisible := false, streamVisible := true }) }

/-- The "Take Multiple" custom action: keep the captured image, swap back to
the live stream, hide the "Take Multiple" button and run
`set_take_photo_action()`. -/
def take_multiple (s : State) : State :=
  match s.dialog with
  | none => s
  | some d =>
      { s with
        dialog := some (set_take_photo_action
          { d with
            previewVisible := false
            streamVisible := true
            multipleVisible := false }) }

/-- The "Submit" primary action: `this.hide(); if (this.callback)
this.callback(this.images)` — hide first, then invoke the callback. -/
def submit_action (s : State) : State × List Event :=
  let r := hide s
  match r.1.callback with
  | some cb => (r.1, r.2 ++ [Event.callbackInvoked cb r.1.images])
  | none => (r.1, r.2)

/-- `submit(fn)`: record `fn` as the registered callback. -/
def submit (fn : Nat) (s : State) : State :=
  { s with callback := some fn }

/-- Toggle of the facing mode:
`facing_mode == "environment" ? "user" : "environment"`. -/
def toggle : FacingMode → FacingMode
  | .environment => .user
  | .user => .environment

/-- The camera-switch handler: toggle `facing_mode`, surface a
"Switching Camera" alert, `hide()` (releasing the held stream), then
`show()` again to acquire a stream with the new facing mode. -/
def switch_camera (s : State) (res : MediaOutcome) : ShowResult :=
  let s0 := { s with facing_mode := toggle s.facing_mode }
  let r1 := hide s0
  let r2 := show_op r1.1 res
  { state := r2.state
    events := Event.alert "Switching Camera" :: (r1.2 ++ r2.events)
    thrown := r2.thrown }

/-- Pressing the dialog's primary button: dispatch on the bound handler.
Capturing needs the video's current frame as input. -/
def press_primary (frame : String) (s : State) : State × List Event :=
  match s.dialog with
  | none => (s, [])
  | some d =>
      match d.primaryHandler with
      | .takePhoto => (take_photo frame s, [])
      | .submitAction => submit_action s

/-- Pressing the dialog's secondary button: dispatch on the bound handler.
A camera switch re-requests a stream, so the request outcome is an input. -/
def press_secondary (res : MediaOutcome) (s : State) : State × List Event :=
  match s.dialog with
  | none => (s, [])
  | some d =>
      match d.secondaryHandler with
      | .retake => (retake s, [])
      | .switchCamera =>
          let r := switch_camera s res
          (r.state, r.events)

/-- No live stream is held: the stream is absent or every track stopped. -/
def no_live_stream (s : State) : Bool :=
  match s.stream with
  | none => true
  | some st => st.tracks.all fun t => t.stopped

/-- The dialog is currently presented. -/
def dialog_shown (s : State) : Bool :=
  match s.dialog with
  | none => false
  | some d => d.shown

/-- A video element as seen by `frappe._.get_data_uri`: its native
dimensions and (abstractly) its current frame. -/
structure VideoElement where
  videoWidth : Nat
  videoHeight : Nat
  frame : Nat
deriving DecidableEq

/-- One `drawImage(source, dx, dy, dw, dh)` call recorded on a canvas. -/
structure DrawOp where
  source : Nat
  dx : Nat
  dy : Nat
  dw : Nat
  dh : Nat
deriving DecidableEq

/-- An off-screen canvas: its dimensions and the draw calls applied to it. -/
structure Canvas where
  width : Nat
  height : Nat
  drawn : List DrawOp
deriving DecidableEq

/-- `context.drawImage(element, dx, dy, dw, dh)`. -/
def Canvas.drawImage (c : Canvas) (e : VideoElement) (dx dy dw dh : Nat) : Canvas :=
  { c with drawn := c.drawn ++ [⟨e.frame, dx, dy, dw, dh⟩] }

/-- A data URL: the encoding format and the encoded surface. -/
structure DataURL where
  format : String
  surface : Canvas
deriving DecidableEq

/-- `canvas.toDataURL(format)`: encode the surface in the given format. -/
def Canvas.toDataURL (c : Canvas) (format : String) : DataURL :=
  { format := format, surface := c }

/-- `frappe._.get_data_uri(element)`: size a fresh canvas to the element's
`videoWidth` times `videoHeight`, draw the current frame onto it at the
origin with those same dimensions, and encode it as a PNG data URL. -/
def get_data_uri (element : VideoElement) : DataURL :=
  let width := element.videoWidth
  let height := element.videoHeight
  let canvas : Canvas := { width := width, height := height, drawn := [] }
  let canvas := canvas.drawImage element 0 0 width height
  canvas.toDataURL "image/png"

/-- A session in the `Idle` state: no stream held, no dialog shown. -/
def idle_session (o : Options) (f : FacingMode) (imgs : List String)
    (cb : Option Nat) : State :=
  { options := o, facing_mode := f, images := imgs,
    stream := none, dialog := none, callback := cb }

/-- A concrete run: default options, callback `0` registered, `show()`
succeeds with a one-track live stream, then the first photo `"img1"` is
taken. -/
def state_after_first_capture : State :=
  (press_primary "img1"
    (show_op (submit 0 (mkCapture {})) (MediaOutcome.ok ⟨[⟨false⟩]⟩)).state).1

/-- The same run after pressing the secondary button, which `render()` bound
to the retake handler: `"img1"` is popped. -/
def state_after_retake : State :=
  (press_secondary (MediaOutcome.ok ⟨[]⟩) state_after_first_capture).1

/-- The same run after capturing a second photo `"img2"`. -/
def state_after_second_capture : State :=
  (press_primary "img2" state_after_retake).1

/-! ## Helper lemmas -/

theorem stopAll_live (st : Stream) : st.stopAll.live = false := by
  simp [Stream.stopAll, Stream.live]

theorem stopAll_all_stopped (st : Stream) :
    (st.stopAll.tracks.all fun t => t.stopped) = true := by
  simp [Stream.stopAll]

theorem stopAll_stopAll (st : Stream) : st.stopAll.stopAll = st.stopAll := by
  simp [Stream.stopAll, List.map_map]

theorem hide_fields (s : State) :
    (hide s).1.options = s.options ∧ (hide s).1.facing_mode = s.facing_mode ∧
    (hide s).1.images = s.images ∧ (hide s).1.callback = s.callback := by
  obtain ⟨o, f, imgs, st, dlg, cb⟩ := s
  cases dlg with
  | none => cases st <;> simp [hide, dialog_hide, stop_media_stream]
  | some d =>
      obtain ⟨sh, pl, ph, sl, sh2, mv, pv, sv⟩ := d
      cases sh <;> cases st <;> simp [hide, dialog_hide, stop_media_stream]

theorem hide_no_live (s : State) : no_live_stream (hide s).1 = true := by
  obtain ⟨o, f, imgs, st, dlg, cb⟩ := s
  cases dlg with
  | none =>
      cases st <;>
        simp [hide, dialog_hide, stop_media_stream, no_live_stream, Stream.stopAll]
  | some d =>
      obtain ⟨sh, pl, ph, sl, sh2, mv, pv, sv⟩ := d
      cases sh <;> cases st <;>
        simp [hide, dialog_hide, stop_media_stream, no_live_stream, Stream.stopAll]

theorem hide_not_shown (s : State) : dialog_shown (hide s).1 = false := by
  obtain ⟨o, f, imgs, st, dlg, cb⟩ := s
  cases dlg with
  | none => cases st <;> simp [hide, dialog_hide, stop_media_stream, dialog_shown]
  | some d =>
      obtain ⟨sh, pl, ph, sl, sh2, mv, pv, sv⟩ := d
      cases sh <;> cases st <;>
        simp [hide, dialog_hide, stop_media_stream, dialog_shown]

theorem hide_no_callback_event (s : State) :
    (hide s).2.filter Event.isCallback = [] := by
  obtain ⟨o, f, imgs, st, dlg, cb⟩ := s
  cases dlg with
  | none =>
      cases st <;> simp [hide, dialog_hide, stop_media_stream, Event.isCallback]
  | some d =>
      obtain ⟨sh, pl, ph, sl, sh2, mv, pv, sv⟩ := d
      cases sh <;> cases st <;>
        simp [hide, dialog_hide, stop_media_stream, Event.isCallback]

theorem hide_idem (s : State) : hide (hide s).1 = ((hide s).1, []) := by
  obtain ⟨o, f, imgs, st, dlg, cb⟩ := s
  cases dlg with
  | none =>
      cases st <;>
        simp [hide, dialog_hide, stop_media_stream, stopAll_stopAll, stopAll_live]
  | some d =>
      obtain ⟨sh, pl, ph, sl, sh2, mv, pv, sv⟩ := d
      cases sh <;> cases st <;>
        simp [hide, dialog_hide, stop_media_stream, stopAll_stopAll, stopAll_live]

theorem show_op_facing (s : State) (r : MediaOutcome) :
    (show_op s r).state.facing_mode = s.facing_mode := by
  cases r <;> simp [show_op, render]

theorem switch_camera_facing (s : State) (r : MediaOutcome) :
    (switch_camera s r).state.facing_mode = toggle s.facing_mode := by
  show (show_op (hide { s with facing_mode := toggle s.facing_mode }).1 r).state.facing_mode = _
  rw [show_op_facing, (hide_fields _).2.1]

/-! ## Claims -/

/-- Claim C1 (code bug): after `show()` → Take Photo (`img1`) → Retake →
Take Photo (`img2`), the first retake did pop `img1`, but every run of
`set_take_photo_action()` rebinds the secondary action to the camera-switch
handler, and only `render()` itself rebinds it to the retake handler.  So in
the second `Captured` state the secondary button is labelled "Retake" yet
bound to the camera switch: pressing it leaves `images` at `["img2"]` and
toggles the facing mode instead of removing the last captured image —
retake works only after the first capture, not after every capture. -/
theorem c1_retake_rebound_to_switch_after_first_cycle :
    state_after_first_capture.images = ["img1"]
    ∧ state_after_retake.images = []
    ∧ state_after_second_capture.images = ["img2"]
    ∧ (state_after_second_capture.dialog.map fun d => d.secondaryLabel)
        = some "Retake"
    ∧ (state_after_second_capture.dialog.map fun d => d.secondaryHandler)
        = some SecondaryHandler.switchCamera
    ∧ (press_secondary (MediaOutcome.ok ⟨[⟨false⟩]⟩)
        state_after_second_capture).1.images = ["img2"]
    ∧ (press_secondary (MediaOutcome.ok ⟨[⟨false⟩]⟩)
        state_after_second_capture).1.facing_mode = FacingMode.user := by
  decide

/-- Claim C2 (counterexample): at a session holding one captured image and a
registered callback, the Submit action's event trace starts with the dialog
dismissal and the stream release, not with the callback invocation: the code
runs `this.hide()` before `this.callback(this.images)`. -/
theorem c2_submit_callback_not_first :
    let s := take_photo "img1"
      (show_op (submit 0 (mkCapture {})) (MediaOutcome.ok ⟨[⟨false⟩]⟩)).state;
    (submit_action s).2
      = [Event.dialogDismissed, Event.streamReleased,
         Event.callbackInvoked 0 ["img1"]]
    ∧ ¬(submit_action s).2.head? = some (Event.callbackInvoked 0 ["img1"]) := by
  decide

/-- Claim C2 (amended): with a registered callback, the Submit action first
hides the session (dialog dismissed, stream released) and then invokes the
registered callback — exactly once — with the full `images` sequence. -/
theorem c2_submit_hides_then_invokes_callback (s : State) (cb : Nat) :
    (submit_action { s with callback := some cb }).1
        = (hide { s with callback := some cb }).1
    ∧ (submit_action { s with callback := some cb }).2
        = (hide { s with callback := some cb }).2
          ++ [Event.callbackInvoked cb s.images]
    ∧ (submit_action { s with callback := some cb }).2.filter Event.isCallback
        = [Event.callbackInvoked cb s.images] := by
  have hcb : (hide { s with callback := some cb }).1.callback = some cb :=
    (hide_fields _).2.2.2
  have him : (hide { s with callback := some cb }).1.images = s.images :=
    (hide_fields _).2.2.1
  refine ⟨?_, ?_, ?_⟩
  · simp only [submit_action, hcb]
  · simp only [submit_action, hcb, him]
  · simp only [submit_action, hcb, him, List.filter_append,
      hide_no_callback_event]
    simp [Event.isCallback]

/-- Claim C3: when the stream request made by `show()` fails, the
"Unable to load camera." alert is surfaced exactly once if and only if
`options.error` is enabled, the error is rethrown to the caller of `show()`,
and an idle session is left exactly as it was: no stream held, no dialog
shown. -/
theorem c3_show_failure_alert_and_rethrow
    (o : Options) (f : FacingMode) (imgs : List String) (cb : Option Nat)
    (e : MediaErr) :
    (show_op (idle_session o f imgs cb) (MediaOutcome.err e)).state
        = idle_session o f imgs cb
    ∧ ((show_op (idle_session o f imgs cb) (MediaOutcome.err e)).events.filter
          Event.isAlert).length = (if o.error then 1 else 0)
    ∧ (show_op (idle_session o f imgs cb) (MediaOutcome.err e)).events
        = (if o.error then [Event.alert err_message] else [])
    ∧ (show_op (idle_session o f imgs cb) (MediaOutcome.err e)).thrown = some e
    ∧ no_live_stream (show_op (idle_session o f imgs cb) (MediaOutcome.err e)).state
        = true
    ∧ dialog_shown (show_op (idle_session o f imgs cb) (MediaOutcome.err e)).state
        = false := by
  refine ⟨rfl, ?_, ?_, rfl, rfl, rfl⟩
  · simp only [show_op, render, idle_session]
    split <;> simp [Event.isAlert]
  · simp only [show_op, render, idle_session]

/-- Claim C4: the camera-switch handler toggles the facing mode between the
only two values `environment` and `user` (switching twice restores the
original value), and it releases the held stream — `hide()` — before
`show()` re-acquires one: the state the new request runs on holds no live
stream, so two live streams are never held at once. -/
theorem c4_switch_camera_toggles_and_releases_first
    (s : State) (r r2 : MediaOutcome) :
    (switch_camera s r).state
        = (show_op (hide { s with facing_mode := toggle s.facing_mode }).1 r).state
    ∧ no_live_stream (hide { s with facing_mode := toggle s.facing_mode }).1 = true
    ∧ (switch_camera s r).state.facing_mode = toggle s.facing_mode
    ∧ (switch_camera (switch_camera s r).state r2).state.facing_mode
        = s.facing_mode
    ∧ toggle (toggle s.facing_mode) = s.facing_mode
    ∧ toggle FacingMode.environment = FacingMode.user
    ∧ toggle FacingMode.user = FacingMode.environment := by
  refine ⟨rfl, hide_no_live _, switch_camera_facing s r, ?_, ?_, rfl, rfl⟩
  · rw [switch_camera_facing, switch_camera_facing]
    cases s.facing_mode <;> rfl
  · cases s.facing_mode <;> rfl

/-- Claim C5: each Take Photo appends exactly one image, Take Multiple keeps
the captured images and only returns to `Previewing`, and the scenario
`show()` → `take_photo()` (`img1`) → `take_multiple()` → `take_photo()`
(`img2`) → Submit invokes the callback with exactly `["img1", "img2"]` in
capture order. -/
theorem c5_image_count_and_take_multiple_scenario
    (s : State) (d : DialogState) (f : String) :
    (take_photo f { s with dialog := some d }).images = s.images ++ [f]
    ∧ (take_multiple { s with dialog := some d }).images = s.images
    ∧ (let s0 := submit 0 (mkCapture {});
       let s1 := (show_op s0 (MediaOutcome.ok ⟨[⟨false⟩]⟩)).state;
       let s2 := (press_primary "img1" s1).1;
       let s3 := take_multiple s2;
       let s4 := (press_primary "img2" s3).1;
       (press_primary "" s4).2.filter Event.isCallback
         = [Event.callbackInvoked 0 ["img1", "img2"]]) := by
  refine ⟨?_, ?_, ?_⟩
  · simp [take_photo]
  · simp [take_multiple]
  · decide

/-- Claim C6: a failed stream request during `show()` leaves both `images`
and `facing_mode` exactly as they were — indeed it leaves the whole session
state unchanged. -/
theorem c6_failure_preserves_images_and_facing (s : State) (e : MediaErr) :
    (show_op s (MediaOutcome.err e)).state.images = s.images
    ∧ (show_op s (MediaOutcome.err e)).state.facing_mode = s.facing_mode
    ∧ (show_op s (MediaOutcome.err e)).state = s := by
  simp [show_op, render]

/-- Claim C7: `hide()` is valid in every state: afterwards no live stream
remains (every track of a held stream is stopped) and no dialog is shown,
and it is idempotent — a second consecutive `hide()` changes nothing and
produces no further effects. -/
theorem c7_hide_releases_everything_and_is_idempotent (s : State) :
    no_live_stream (hide s).1 = true
    ∧ dialog_shown (hide s).1 = false
    ∧ hide (hide s).1 = ((hide s).1, []) :=
  ⟨hide_no_live s, hide_not_shown s, hide_idem s⟩

/-- Claim C8: `frappe._.get_data_uri` draws the element's current frame onto
an off-screen canvas sized exactly `videoWidth` times `videoHeight`, drawn at
the origin with exactly those dimensions (native resolution, no scaling),
and encodes the canvas as a PNG data URI. -/
theorem c8_get_data_uri_native_resolution_png (e : VideoElement) :
    (get_data_uri e).surface.width = e.videoWidth
    ∧ (get_data_uri e).surface.height = e.videoHeight
    ∧ (get_data_uri e).surface.drawn
        = [{ source := e.frame, dx := 0, dy := 0,
             dw := e.videoWidth, dh := e.videoHeight }]
    ∧ (get_data_uri e).format = "image/png" :=
  ⟨rfl, rfl, rfl, rfl⟩

/-- Claim C9: `submit(fn)` records `fn` as the single registered callback —
replacing any previous one — and changes nothing else (options, facing mode,
images, stream, dialog); and when the Submit action fires with no callback
registered the session just hides: same state and events as a plain
`hide()`, with no callback invocation. -/
theorem c9_submit_registration_frame_and_no_callback (s : State) (f : Nat) :
    (submit f s).callback = some f
    ∧ (submit f s).options = s.options
    ∧ (submit f s).facing_mode = s.facing_mode
    ∧ (submit f s).images = s.images
    ∧ (submit f s).stream = s.stream
    ∧ (submit f s).dialog = s.dialog
    ∧ (submit_action { s with callback := none }).1
        = (hide { s with callback := none }).1
    ∧ (submit_action { s with callback := none }).2
        = (hide { s with callback := none }).2
    ∧ (submit_action { s with callback := none }).2.filter Event.isCallback
        = [] := by
  have hcb : (hide { s with callback := none }).1.callback = none :=
    (hide_fields _).2.2.2
  refine ⟨rfl, rfl, rfl, rfl, rfl, rfl, ?_, ?_, ?_⟩
  · simp only [submit_action, hcb]
  · simp only [submit_action, hcb]
  · simp only [submit_action, hcb]
    simp [hide_no_callback_event]

/-- Claim C10: every omitted constructor option takes its default — title
"Camera", animate `false`, error `false` — and a newly constructed session
starts facing the environment camera with an empty image sequence. -/
theorem c10_constructor_defaults (o : OptionsArg) :
    (mkCapture o).options.title = o.title.getD "Camera"
    ∧ (mkCapture o).options.animate = o.animate.getD false
    ∧ (mkCapture o).options.error = o.error.getD false
    ∧ (mkCapture o).facing_mode = FacingMode.environment
    ∧ (mkCapture o).images = []
    ∧ (mkCapture { title := none, animate := none, error := none }).options
        = OPTIONS :=
  ⟨rfl, rfl, rfl, rfl, rfl, rfl⟩

end Capture
